import Mathlib

/-!
# Verification of the OpsYield multi-provider orchestration core

Shallow embedding of the aggregation engine (`opsyield/core/aggregation.py`),
the analysis orchestrator (`opsyield/core/orchestrator.py`) and the provider
factory / status cache (`opsyield/providers/factory.py`).

Python floats are modelled as exact rationals (`ℚ`); the Python builtin
`round` (round-half-to-even) is modelled exactly on `ℚ`.  Python dictionaries
whose keys are strings are modelled as association lists in insertion order.
`datetime` values are modelled as ISO-8601 strings, so that
`ts.strftime("%Y-%m-%d")` and `str(ts)[:10]` both become `String.take 10`.
Async calls that may raise are modelled by `Except String`.
-/

namespace OpsYield

/-- A Python value as it appears inside the dictionaries this core manipulates:
numbers (ints and floats, as exact rationals), strings, booleans, lists of
strings, and nested dictionaries. -/
inductive PyVal where
  | num (q : ℚ)
  | str (s : String)
  | bool (b : Bool)
  | strs (l : List String)
  | dct (d : List (String × PyVal))

/-- A Python `dict` with string keys, in insertion order. -/
abbrev Dict := List (String × PyVal)

/-- Python `d.get(k, dflt)` for a numeric entry.  A missing key yields the default
(as does a non-numeric value, which in Python would raise on arithmetic use;
the core only ever stores numbers under the keys read this way). -/
def numGet (d : Dict) (k : String) (dflt : ℚ) : ℚ :=
  match List.lookup k d with
  | some (.num q) => q
  | _ => dflt

/-- Python `d.get(k, dflt)` for a string entry. -/
def strGet (d : Dict) (k : String) (dflt : String) : String :=
  match List.lookup k d with
  | some (.str s) => s
  | _ => dflt

/-- Python `{**d, k: v}`: a fresh dict with all entries of `d`, the value at
`k` replaced in place if the key exists, else appended at the end. -/
def pyUnion1 (d : Dict) (k : String) (v : PyVal) : Dict :=
  if (List.lookup k d).isSome then
    d.map (fun kv => if kv.1 == k then (k, v) else kv)
  else
    d ++ [(k, v)]

/-- Python `m[k] = m.get(k, 0) + c` on a `dict[str, int]` kept in insertion
order: update in place if present, append otherwise. -/
def bump (m : List (String × ℕ)) (k : String) (c : ℕ) : List (String × ℕ) :=
  if (List.lookup k m).isSome then
    m.map (fun kv => if kv.1 == k then (kv.1, kv.2 + c) else kv)
  else
    m ++ [(k, c)]

/-- Python `m[k] = m.get(k, 0.0) + c` on a `dict[str, float]`. -/
def bumpQ (m : List (String × ℚ)) (k : String) (c : ℚ) : List (String × ℚ) :=
  if (List.lookup k m).isSome then
    m.map (fun kv => if kv.1 == k then (kv.1, kv.2 + c) else kv)
  else
    m ++ [(k, c)]

/-- Python `s.lower()`: ASCII lowering, character by character (the provider
names this core lowercases are ASCII). -/
def pyLower (s : String) : String := ⟨s.data.map Char.toLower⟩

/-- Python `s.upper()`: ASCII uppercasing, character by character. -/
def pyUpper (s : String) : String := ⟨s.data.map Char.toUpper⟩

/-- Round-half-to-even to an integer, the semantics of the Python builtin
`round` (on our exact-rational model of floats). -/
def roundHalfEven (x : ℚ) : ℤ :=
  let n := ⌊x⌋
  let frac := x - n
  if frac < 1/2 then n
  else if 1/2 < frac then n + 1
  else if n % 2 = 0 then n else n + 1

/-- Python `round(x, 2)`. -/
def round2 (x : ℚ) : ℚ := (roundHalfEven (x * 100) : ℚ) / 100

/-- Python `round(x, 4)`. -/
def round4 (x : ℚ) : ℚ := (roundHalfEven (x * 10000) : ℚ) / 10000

/-- Python `round(x, 1)`. -/
def round1 (x : ℚ) : ℚ := (roundHalfEven (x * 10) : ℚ) / 10

/-- Python `sorted(l, key=key, reverse=True)`: stable sort, descending by a
numeric key.  `List.insertionSort` places each earlier element before the
first later element related to it, which for the relation
`key b ≤ key a` reproduces the stable descending order of Python. -/
def sortDescBy (key : Dict → ℚ) (l : List Dict) : List Dict :=
  letI : DecidableRel (fun a b : Dict => key b ≤ key a) :=
    fun a b => inferInstanceAs (Decidable (key b ≤ key a))
  List.insertionSort (fun a b => key b ≤ key a) l

/-- Python `sorted(l, key=key)`: stable sort, ascending by a string key
(fixed-width `YYYY-MM-DD` date strings compare lexicographically). -/
def sortAscByStr (key : Dict → String) (l : List Dict) : List Dict :=
  letI : DecidableRel (fun a b : Dict => key a ≤ key b) :=
    fun a b => inferInstanceAs (Decidable (key a ≤ key b))
  List.insertionSort (fun a b => key a ≤ key b) l

/-- Python `sorted(m.items())` for a `dict[str, float]` (unique keys, so the
tuple order is the key order). -/
def sortPairsByKey (l : List (String × ℚ)) : List (String × ℚ) :=
  letI : DecidableRel (fun a b : String × ℚ => a.1 ≤ b.1) :=
    fun a b => inferInstanceAs (Decidable (a.1 ≤ b.1))
  List.insertionSort (fun a b : String × ℚ => a.1 ≤ b.1) l

/-- Modelled from the spec: `opsyield/core/models.py` is imported throughout
the source tree (`from .models import NormalizedCost, Resource, AnalysisResult`)
but the file itself is not present; fields follow spec §3 ("NormalizedCost —
one billing line item ...") and the constructor calls in the orchestrator,
the providers and `tests/test_core.py`.  `timestamp` is the ISO-8601 string
of the datetime. -/
structure NormalizedCost where
  provider : String
  service : String
  region : String
  resource_id : String
  cost : ℚ
  currency : String
  timestamp : String
  account_id : Option String := none
  team : Option String := none
  business_unit : Option String := none
  environment : Option String := none
  tags : List (String × String) := []

/-- Modelled from the spec: `opsyield/core/models.py` is absent from the
source tree; fields follow spec §3 ("Resource — one discovered infrastructure
unit ...") and the constructor calls in the orchestrator, the providers and
`tests/test_core.py` (minimal construction `Resource(id, name, type, provider)`
with `risk_score == 0` and `dependencies == []` defaults). -/
structure Resource where
  id : String
  name : String
  type : String
  provider : String
  state : Option String := none
  external_ip : Option String := none
  cpu_avg : Option ℚ := none
  memory_avg : Option ℚ := none
  cost_30d : Option ℚ := none
  created_at : Option String := none
  risk_score : ℚ := 0
  dependencies : List String := []

/-- Modelled from the spec: `opsyield/core/models.py` is absent from the
source tree; fields follow spec §3 ("AnalysisResult — the unit exchanged
between Orchestrator and Aggregation Engine") together with the keyword
constructions in `orchestrator.py`, `aggregation.py` and `tests/test_core.py`.
The first ten fields are required (every constructor call in the source
passes them); the enrichment fields default to empty/zero, as witnessed by
`tests/test_core.py::TestAnalysisResult.test_create_default`
(`result.running_count == 0`, `result.waste_findings == []`). -/
structure AnalysisResult where
  meta : Dict
  summary : Dict
  executive_summary : Dict
  trends : Dict
  daily_trends : List Dict
  anomalies : List Dict
  forecast : Dict
  governance_issues : List Dict
  optimizations : List Dict
  resources : List Resource
  cost_drivers : List Dict := []
  resource_types : List (String × ℕ) := []
  running_count : ℕ := 0
  high_cost_resources : List Dict := []
  idle_resources : List Dict := []
  waste_findings : List Dict := []

namespace AggregationEngine

/-- Source `AggregationEngine._empty_result` (`aggregation.py` lines 172–185):
the canonical zero-value result.  The enrichment fields are not passed and so
take the dataclass defaults. -/
def emptyResult : AnalysisResult where
  meta := [("provider", .str "none"), ("type", .str "empty")]
  summary := [("total_cost", .num 0), ("resource_count", .num 0)]
  executive_summary := [("risk_score", .num 0)]
  trends := []
  daily_trends := []
  anomalies := []
  forecast := []
  governance_issues := []
  optimizations := []
  resources := []

/-- Python `r.meta.get("provider", "unknown")` as read in the merge loop. -/
def provOf (r : AnalysisResult) : String := strGet r.meta "provider" "unknown"

/-- Source `AggregationEngine._merge_forecasts` (`aggregation.py` lines 158–170). -/
def mergeForecasts (fs : List Dict) : Dict :=
  if fs.isEmpty then []
  else
    let nonempty := fs.filter (fun f => !f.isEmpty)
    let total := nonempty.foldl
      (fun a f => a + numGet f "predicted_additional_spend" 0) 0
    [("predicted_additional_spend", .num (round2 total)),
     ("source_forecasts", .num nonempty.length),
     ("confidence", .str "low")]

/-- The two-or-more branch of `AggregationEngine.merge` (`aggregation.py`
lines 35–156).  The single Python loop over `results` updates independent
accumulators; it is embedded as one left fold per accumulator, each fold
mirroring the corresponding statement of the loop body. -/
def mergeMany (now : String) (rs : List AnalysisResult) : AnalysisResult :=
  let providersSeen := rs.map provOf
  let all_resources := rs.foldl (fun a r => a ++ r.resources) []
  let total_cost := rs.foldl (fun a r => a + numGet r.summary "total_cost" 0) 0
  let total_waste := rs.foldl (fun a r => a + numGet r.summary "total_waste" 0) 0
  let all_anomalies := rs.foldl
    (fun a r => a ++ r.anomalies.map (fun d => pyUnion1 d "provider" (.str (provOf r)))) []
  let all_governance := rs.foldl (fun a r => a ++ r.governance_issues) []
  let all_optimizations := rs.foldl (fun a r => a ++ r.optimizations) []
  let all_daily_trends := rs.foldl
    (fun a r => a ++ r.daily_trends.map (fun d => pyUnion1 d "provider" (.str (provOf r)))) []
  let all_cost_drivers := rs.foldl (fun a r => a ++ r.cost_drivers) []
  let all_high_cost := rs.foldl (fun a r => a ++ r.high_cost_resources) []
  let all_idle := rs.foldl (fun a r => a ++ r.idle_resources) []
  let all_waste_findings := rs.foldl (fun a r => a ++ r.waste_findings) []
  let running_count := rs.foldl (fun a r => a + r.running_count) 0
  let resource_types := rs.foldl
    (fun m r => r.resource_types.foldl (fun m' kv => bump m' kv.1 kv.2) m) []
  let merged_forecast := mergeForecasts (rs.map (·.forecast))
  let risk_scores := (rs.filter (fun r => !r.executive_summary.isEmpty)).map
    (fun r => numGet r.executive_summary "risk_score" 0)
  let avg_risk : ℚ := if risk_scores.isEmpty then 0 else risk_scores.sum / risk_scores.length
  { meta :=
      [("provider", .str (String.intercalate "," providersSeen)),
       ("type", .str "multi-cloud-aggregate"),
       ("generated_at", .str now),
       ("source_count", .str (toString rs.length))]
    summary :=
      [("total_cost", .num (round2 total_cost)),
       ("total_waste", .num (round2 total_waste)),
       ("resource_count", .num all_resources.length),
       ("providers", .strs providersSeen),
       ("savings_potential", .num (round2 (total_waste * (6/10))))]
    executive_summary :=
      [("risk_score", .num (round1 avg_risk)),
       ("headline", .str ("Multi-cloud analysis across " ++ String.intercalate ", " providersSeen)),
       ("total_cost", .num (round2 total_cost)),
       ("provider_count", .num providersSeen.length)]
    trends := [("aggregated", .bool true), ("provider_count", .num rs.length)]
    daily_trends := sortAscByStr (fun d => strGet d "date" "") all_daily_trends
    anomalies := all_anomalies
    forecast := merged_forecast
    governance_issues := all_governance
    optimizations := sortDescBy (fun d => numGet d "potential_savings" 0) all_optimizations
    resources := all_resources
    cost_drivers := (sortDescBy (fun d => numGet d "cost" 0) all_cost_drivers).take 20
    resource_types := resource_types
    running_count := running_count
    high_cost_resources := (sortDescBy (fun d => numGet d "cost" 0) all_high_cost).take 20
    idle_resources := all_idle
    waste_findings := all_waste_findings }

/-- Source `AggregationEngine.merge` (`aggregation.py` lines 23–156): empty input
returns the canonical empty result, a single input is returned itself
(`return results[0]`, no reconstruction), two or more inputs are merged. -/
def merge (now : String) : List AnalysisResult → AnalysisResult
  | [] => emptyResult
  | [r] => r
  | rs => mergeMany now rs

end AggregationEngine

/-- The three adapter classes registered in `ProviderFactory._providers`
(`factory.py` lines 109–113). -/
inductive ProviderClass where
  | gcp
  | aws
  | azure
deriving DecidableEq

namespace ProviderFactory

/-- Source `ProviderFactory._providers` (`factory.py` lines 109–113), in insertion
order. -/
def providerRegistry : List (String × ProviderClass) :=
  [("gcp", .gcp), ("aws", .aws), ("azure", .azure)]

/-- Python `list(cls._providers.keys())` (`factory.py` line 176). -/
def registeredNames : List String := providerRegistry.map Prod.fst

/-- Source `ProviderFactory.get_provider` (`factory.py` lines 115–139): lowercase the
requested name, look it up in the registry, raise
`ValueError(f"Unknown provider: {provider_name}")` when absent.  The kwarg
filtering only selects constructor arguments and does not affect which class
is resolved. -/
def get_provider (provider_name : String) : Except String ProviderClass :=
  match List.lookup (pyLower provider_name) providerRegistry with
  | some c => .ok c
  | none => .error ("Unknown provider: " ++ provider_name)

end ProviderFactory

namespace Orchestrator

/-- Source `_safe` (`orchestrator.py` lines 178–184): await the call, return the
default on any exception.  The outcome of the awaited adapter call is the
`Except` argument. -/
def safeAwait (call : Except String α) (default : α) : α :=
  match call with
  | .ok v => v
  | .error _ => default

/-- Python `c.timestamp.strftime("%Y-%m-%d")` on a datetime, or `str(...)[:10]` on
anything else — on our ISO-8601 string model both are the first ten
characters. -/
def dayOf (ts : String) : String := ts.take 10

/-- Python `r.state and r.state.upper() in ("RUNNING", "ACTIVE", "ONLINE")`
(`orchestrator.py` line 86): `None` and the empty string are falsy. -/
def isRunning (state : Option String) : Bool :=
  match state with
  | some s => s != "" && ["RUNNING", "ACTIVE", "ONLINE"].contains (pyUpper s)
  | none => false

/-- Python `if r.cost_30d and r.cost_30d > 10` (`orchestrator.py` line 88):
`None` and `0.0` are falsy, and the threshold is strict. -/
def isHighCost (cost_30d : Option ℚ) : Bool :=
  match cost_30d with
  | some c => c != 0 && 10 < c
  | none => false

/-- The body of `Orchestrator.analyze` after the two concurrent fetches
(`orchestrator.py` lines 57–121): daily trends, total cost, per-service cost
drivers from the cost list; type histogram, running count and high-cost list
from the resource list; assembly of the `AnalysisResult`. -/
def buildAnalysis (provider_name : String) (days : ℕ) (now : String)
    (costs : List NormalizedCost) (resources : List Resource) : AnalysisResult :=
  let daily_map := costs.foldl (fun m c => bumpQ m (dayOf c.timestamp) c.cost) []
  let total_cost := costs.foldl (fun a c => a + c.cost) 0
  let cost_by_service := costs.foldl (fun m c => bumpQ m c.service c.cost) []
  let daily_trends := (sortPairsByKey daily_map).map
    (fun p => [("date", PyVal.str p.1), ("amount", PyVal.num (round4 p.2))])
  let cost_drivers := (sortDescBy (fun d => numGet d "cost" 0)
    (cost_by_service.map
      (fun p => [("service", PyVal.str p.1), ("cost", PyVal.num (round4 p.2))]))).take 10
  let resource_types := resources.foldl
    (fun m r => bump m (if r.type == "" then "unknown" else r.type) 1) []
  let running_count := resources.foldl
    (fun n r => if isRunning r.state then n + 1 else n) 0
  let high_cost := resources.foldl
    (fun l r =>
      if isHighCost r.cost_30d then
        l ++ [[("id", PyVal.str r.id), ("name", PyVal.str r.name),
               ("type", PyVal.str r.type),
               ("cost_30d", PyVal.num (r.cost_30d.getD 0))]]
      else l) []
  { meta :=
      [("provider", .str provider_name),
       ("period_days", .str (toString days)),
       ("generated_at", .str now)]
    summary :=
      [("total_cost", .num (round4 total_cost)),
       ("currency", .str "USD"),
       ("resource_count", .num resources.length)]
    executive_summary :=
      [("total_spend", .num (round4 total_cost)),
       ("risk_score", .num 0),
       ("anomaly_count", .num 0),
       ("active_recommendations", .num 0)]
    trends := []
    daily_trends := daily_trends
    anomalies := []
    forecast := []
    governance_issues := []
    optimizations := []
    resources := resources
    cost_drivers := cost_drivers
    resource_types := resource_types
    running_count := running_count
    high_cost_resources := (sortDescBy (fun d => numGet d "cost_30d" 0) high_cost).take 20
    idle_resources := []
    waste_findings := [] }

/-- Source `Orchestrator.analyze` (`orchestrator.py` lines 33–121): resolve the
provider via the factory (propagating the unknown-provider error), run the
two adapter calls under `_safe` (each independently degraded to the empty
list on exception), and assemble the result.  `costsCall` and `infraCall`
are the outcomes of `provider.get_costs(days)` and
`provider.get_infrastructure()`. -/
def analyze (provider_name : String) (days : ℕ) (now : String)
    (costsCall : Except String (List NormalizedCost))
    (infraCall : Except String (List Resource)) : Except String AnalysisResult :=
  match ProviderFactory.get_provider provider_name with
  | .error e => .error e
  | .ok _ =>
      .ok (buildAnalysis provider_name days now
        (safeAwait costsCall []) (safeAwait infraCall []))

end Orchestrator

namespace ProviderFactory

/-- The outcome of one `provider.get_status()` probe as seen by
`safe_status`: a structured result within the timeout, a timeout, or an
exception. -/
inductive ProbeOutcome where
  | ok (st : Dict)
  | timeout
  | err (e : String)

/-- The outcome of `cls._providers[name]()` for one provider: an instance
whose probe then has the given outcome, or a constructor exception
(`factory.py` lines 180–185). -/
inductive CtorOutcome where
  | built (p : ProbeOutcome)
  | ctorFail (e : String)

/-- The degraded status returned by `safe_status` on `asyncio.TimeoutError`
(`factory.py` lines 60–67); `timeout` is the default `20.0`, so the message
interpolates as `20.0s`. -/
def timeoutStatus : Dict :=
  [("installed", .bool true),
   ("authenticated", .bool false),
   ("error", .str "Status check timed out after 20.0s"),
   ("debug", .dct [("timeout", .bool true)])]

/-- The degraded status returned by `safe_status` on any other exception
(`factory.py` lines 69–76). -/
def exceptionStatus (e : String) : Dict :=
  [("installed", .bool false),
   ("authenticated", .bool false),
   ("error", .str e),
   ("debug", .dct [("exception", .str e)])]

/-- Source `safe_status` (`factory.py` lines 40–76): never raises, always returns a
structured status. -/
def safe_status (o : ProbeOutcome) : Dict :=
  match o with
  | .ok st => st
  | .timeout => timeoutStatus
  | .err e => exceptionStatus e

/-- The synthetic status produced by the local `_fail` coroutine when a
provider class could not be instantiated (`factory.py` lines 194–199). -/
def instantiateFail (n : String) : Dict :=
  [("installed", .bool false),
   ("authenticated", .bool false),
   ("error", .str ("Failed to instantiate " ++ n))]

/-- The nondeterministic environment of one refresh: the constructor/probe
outcome per provider name, the elapsed probe time in seconds, and the
`_get_env_snapshot()` contents. -/
structure ProbeEnv where
  outcome : String → CtorOutcome
  elapsed : ℚ
  env : Dict

/-- The cache-miss body of `ProviderFactory.get_all_statuses`
(`factory.py` lines 174–227): instantiate every registered provider
(construction failures become synthetic failure statuses), run every probe
under `safe_status`, then assemble `{gcp: ..., aws: ..., azure: ..., _meta: ...}`. -/
def refreshStatuses (pe : ProbeEnv) : Dict :=
  (registeredNames.map (fun n =>
    (n, PyVal.dct (match pe.outcome n with
      | .built p => safe_status p
      | .ctorFail _ => instantiateFail n))))
  ++ [("_meta", .dct
        [("elapsed_ms", .num (roundHalfEven (pe.elapsed * 1000) : ℚ)),
         ("env", .dct pe.env)])]

/-- Source `_CACHE_TTL` (`factory.py` line 32). -/
def CACHE_TTL : ℚ := 60

/-- The module-level cache state `_status_cache` / `_cache_timestamp`
(`factory.py` lines 30–31).  The empty initial dict is falsy in the guard
`if _status_cache and ...`, and every stored snapshot is nonempty (it always
holds `_meta`), so truthiness is modelled by `Option`. -/
structure CacheState where
  cache : Option Dict
  timestamp : ℚ

/-- Source `ProviderFactory.get_all_statuses` (`factory.py` lines 141–227) as a
state transformer: given the cache state, the monotonic clock value `now`
read at entry, the probe environment, and the clock value `tEnd` read at the
write-back, return the new cache state and the returned mapping.  The
surrounding `async with _cache_lock` serializes calls, so the sequential
state-passing model is faithful. -/
def get_all_statuses (st : CacheState) (now : ℚ) (pe : ProbeEnv) (tEnd : ℚ) :
    CacheState × Dict :=
  match st.cache with
  | some c =>
      if now - st.timestamp < CACHE_TTL then (st, c)
      else
        let out := refreshStatuses pe
        ({ cache := some out, timestamp := tEnd }, out)
  | none =>
      let out := refreshStatuses pe
      ({ cache := some out, timestamp := tEnd }, out)

end ProviderFactory

namespace ProviderFactory

/-- The observable events of one `get_all_statuses` call, in program order:
lock acquisition and release (the `async with _cache_lock` block), the cache
freshness check, the provider-instantiation loop, the concurrent probe
(`await asyncio.gather(*tasks)`), and the cache write-back. -/
inductive LockEv where
  | acquire
  | release
  | cacheCheck
  | ctorLoop
  | probe
  | writeBack
deriving DecidableEq, BEq

/-- The event trace of one `get_all_statuses` call (`factory.py` lines
160–227), read off the source syntactically: the `async with _cache_lock`
block opens before the freshness check and closes only after the return, so
on a cache hit the trace is check-only and on a miss the instantiation,
probing and write-back all happen before the release. -/
def statusesBody (hit : Bool) : List LockEv :=
  [.acquire, .cacheCheck]
    ++ (if hit then [] else [.ctorLoop, .probe, .writeBack])
    ++ [.release]

/-- Annotate each event of a trace with the number of locks held while it
executes (`acquire` is annotated with the count before it takes effect,
`release` with the count after it releases). -/
def annotateDepth : List LockEv → ℕ → List (LockEv × ℕ)
  | [], _ => []
  | .acquire :: es, d => (.acquire, d) :: annotateDepth es (d + 1)
  | .release :: es, d => (.release, d - 1) :: annotateDepth es (d - 1)
  | e :: es, d => (e, d) :: annotateDepth es d

/-- Whether every `probe` event of a trace executes with no lock held. -/
def probesOutsideLock (tr : List LockEv) : Bool :=
  (annotateDepth tr 0).all (fun p => !(p.1 == .probe) || p.2 == 0)

/-- Whether every `probe` event of a trace executes with the lock held. -/
def probesUnderLock (tr : List LockEv) : Bool :=
  (annotateDepth tr 0).all (fun p => !(p.1 == .probe) || p.2 != 0)

end ProviderFactory

namespace AggregationEngine

/-- A store of Python dict objects; an object reference is an index, and
allocation appends. -/
abbrev Store := List Dict

/-- Dereference an object reference. -/
def readRef (σ : Store) (r : ℕ) : Dict := σ.getD r []

/-- Allocate a fresh dict object, returning the new store and the fresh
reference. -/
def allocRef (σ : Store) (d : Dict) : Store × ℕ := (σ ++ [d], σ.length)

/-- The inner tagging loop of `AggregationEngine.merge` at the level of
Python object references (`aggregation.py` lines 64–66 for anomalies and
75–77 for daily trends): for each source dict `a`, the copy
`a_copy = {**a, "provider": provider}` allocates a fresh object, which is
appended to the accumulator list; the source object is only read. -/
def tagRefs (provider : String) (acc : Store × List ℕ) (refs : List ℕ) :
    Store × List ℕ :=
  refs.foldl
    (fun acc r =>
      let copy := pyUnion1 (readRef acc.1 r) "provider" (.str provider)
      let alloc := allocRef acc.1 copy
      (alloc.1, acc.2 ++ [alloc.2]))
    acc

/-- The outer loop of `AggregationEngine.merge` over the per-provider inputs,
restricted to its dict-tagging effect: each input contributes its provider
name and the references of its anomaly (likewise daily-trend) dicts. -/
def mergeTagLoop (σ : Store) (inputs : List (String × List ℕ)) :
    Store × List ℕ :=
  inputs.foldl (fun acc pr => tagRefs pr.1 acc pr.2) (σ, [])

end AggregationEngine

/-! ## Helper lemmas -/

theorem foldl_add_eq (f : α → ℚ) (l : List α) (init : ℚ) :
    l.foldl (fun a r => a + f r) init = init + (l.map f).sum := by
  induction l generalizing init with
  | nil => simp
  | cons x xs ih => simp [ih, add_assoc]

theorem foldl_append_eq (f : α → List β) (l : List α) (init : List β) :
    l.foldl (fun a r => a ++ f r) init = init ++ (l.map f).flatten := by
  induction l generalizing init with
  | nil => simp
  | cons x xs ih => simp [ih]

/-! ## Claims about the Aggregation Engine -/

/-- C2: for every `AnalysisResult` `x`, `merge([x])` returns `x` itself: the
source executes `return results[0]` without reconstructing, so the
single-element merge is the identity (in the embedding, the returned value is
definitionally the input). -/
theorem merge_single_identity (now : String) (x : AnalysisResult) :
    AggregationEngine.merge now [x] = x := rfl

/-- C3: `merge([])` returns the canonical empty result: `meta["provider"]`
is `"none"`, `summary["total_cost"]` and `summary["resource_count"]` are `0`,
and every list field is empty (the fields `_empty_result` does not pass take
the dataclass defaults, which are empty). -/
theorem merge_empty_canonical (now : String) :
    List.lookup "provider" (AggregationEngine.merge now []).meta = some (.str "none") ∧
    List.lookup "total_cost" (AggregationEngine.merge now []).summary = some (.num 0) ∧
    List.lookup "resource_count" (AggregationEngine.merge now []).summary = some (.num 0) ∧
    (AggregationEngine.merge now []).daily_trends = [] ∧
    (AggregationEngine.merge now []).anomalies = [] ∧
    (AggregationEngine.merge now []).governance_issues = [] ∧
    (AggregationEngine.merge now []).optimizations = [] ∧
    (AggregationEngine.merge now []).resources = [] ∧
    (AggregationEngine.merge now []).cost_drivers = [] ∧
    (AggregationEngine.merge now []).high_cost_resources = [] ∧
    (AggregationEngine.merge now []).idle_resources = [] ∧
    (AggregationEngine.merge now []).waste_findings = [] :=
  ⟨rfl, rfl, rfl, rfl, rfl, rfl, rfl, rfl, rfl, rfl, rfl, rfl⟩

/-- C4: for two or more inputs, the merged `summary["total_cost"]` is the
arithmetic sum of the input `total_cost` values (missing keys contributing
`0`) rounded to 2 decimals, and likewise `summary["total_waste"]`. -/
theorem merge_sums_costs (now : String) (rs : List AnalysisResult)
    (h : 2 ≤ rs.length) :
    List.lookup "total_cost" (AggregationEngine.merge now rs).summary =
      some (.num (round2 ((rs.map fun r => numGet r.summary "total_cost" 0).sum))) ∧
    List.lookup "total_waste" (AggregationEngine.merge now rs).summary =
      some (.num (round2 ((rs.map fun r => numGet r.summary "total_waste" 0).sum))) := by
  match rs with
  | [] => simp at h
  | [r] => simp at h
  | a :: b :: t =>
    have hc : List.lookup "total_cost" (AggregationEngine.merge now (a :: b :: t)).summary =
        some (.num (round2 ((a :: b :: t).foldl
          (fun acc r => acc + numGet r.summary "total_cost" 0) 0))) := rfl
    have hw : List.lookup "total_waste" (AggregationEngine.merge now (a :: b :: t)).summary =
        some (.num (round2 ((a :: b :: t).foldl
          (fun acc r => acc + numGet r.summary "total_waste" 0) 0))) := rfl
    rw [hc, hw, foldl_add_eq, foldl_add_eq, zero_add, zero_add]
    exact ⟨rfl, rfl⟩

/-- A small concrete per-provider result used by the witnesses: 100 currency
units of cost, 10 of waste, one cost driver, one expensive resource. -/
def sampleA : AnalysisResult where
  meta := [("provider", .str "gcp")]
  summary := [("total_cost", .num 100), ("total_waste", .num 10), ("resource_count", .num 0)]
  executive_summary := [("risk_score", .num 5)]
  trends := []
  daily_trends := [[("date", .str "2026-01-03"), ("amount", .num 100)]]
  anomalies := [[("kind", .str "spike")]]
  forecast := [("predicted_additional_spend", .num 50)]
  governance_issues := []
  optimizations := []
  resources := []
  cost_drivers := [[("service", .str "Compute"), ("cost", .num 100)]]
  high_cost_resources := [[("id", .str "vm-1"), ("cost", .num 60)]]

/-- A second concrete per-provider result used by the witnesses. -/
def sampleB : AnalysisResult where
  meta := [("provider", .str "aws")]
  summary := [("total_cost", .num 200), ("total_waste", .num 20), ("resource_count", .num 0)]
  executive_summary := [("risk_score", .num 7)]
  trends := []
  daily_trends := [[("date", .str "2026-01-01"), ("amount", .num 200)]]
  anomalies := []
  forecast := [("predicted_additional_spend", .num 100)]
  governance_issues := []
  optimizations := []
  resources := []
  cost_drivers := [[("service", .str "EC2"), ("cost", .num 200)]]
  high_cost_resources := [[("id", .str "i-2"), ("cost", .num 90)]]

/-- Witness for C4 at the concrete pair `a = 100.0`, `b = 200.0`. -/
theorem merge_sums_costs_witness :
    List.lookup "total_cost" (AggregationEngine.merge "t" [sampleA, sampleB]).summary =
      some (.num (round2 (([sampleA, sampleB].map
        fun r => numGet r.summary "total_cost" 0).sum))) :=
  (merge_sums_costs "t" [sampleA, sampleB] (by decide)).1

theorem pairwise_sortDescBy (key : Dict → ℚ) (l : List Dict) :
    List.Pairwise (fun a b => key b ≤ key a) (sortDescBy key l) := by
  letI : DecidableRel (fun a b : Dict => key b ≤ key a) :=
    fun a b => inferInstanceAs (Decidable (key b ≤ key a))
  haveI : IsTotal Dict (fun a b => key b ≤ key a) := ⟨fun a b => le_total (key b) (key a)⟩
  haveI : IsTrans Dict (fun a b => key b ≤ key a) := ⟨fun _ _ _ hab hbc => le_trans hbc hab⟩
  have hs := List.sorted_insertionSort (fun a b : Dict => key b ≤ key a) l
  simpa [sortDescBy, List.Sorted] using hs

/-- C5: for two or more inputs, the merged cost-driver and high-cost-resource
lists are each the concatenation of the input lists, re-sorted descending
by the `"cost"` entry and truncated to at most 20 entries, with truncation
applied to the merged list (after concatenation), not per input. -/
theorem merge_top_lists (now : String) (rs : List AnalysisResult)
    (h : 2 ≤ rs.length) :
    (AggregationEngine.merge now rs).cost_drivers =
      (sortDescBy (fun d => numGet d "cost" 0)
        ((rs.map (·.cost_drivers)).flatten)).take 20 ∧
    (AggregationEngine.merge now rs).high_cost_resources =
      (sortDescBy (fun d => numGet d "cost" 0)
        ((rs.map (·.high_cost_resources)).flatten)).take 20 ∧
    (AggregationEngine.merge now rs).cost_drivers.length ≤ 20 ∧
    (AggregationEngine.merge now rs).high_cost_resources.length ≤ 20 ∧
    List.Pairwise (fun a b => numGet b "cost" 0 ≤ numGet a "cost" 0)
      (AggregationEngine.merge now rs).cost_drivers ∧
    List.Pairwise (fun a b => numGet b "cost" 0 ≤ numGet a "cost" 0)
      (AggregationEngine.merge now rs).high_cost_resources := by
  match rs with
  | [] => simp at h
  | [r] => simp at h
  | a :: b :: t =>
    have hcd : (AggregationEngine.merge now (a :: b :: t)).cost_drivers =
        (sortDescBy (fun d => numGet d "cost" 0)
          ((a :: b :: t).foldl (fun acc r => acc ++ r.cost_drivers) [])).take 20 := rfl
    have hhc : (AggregationEngine.merge now (a :: b :: t)).high_cost_resources =
        (sortDescBy (fun d => numGet d "cost" 0)
          ((a :: b :: t).foldl (fun acc r => acc ++ r.high_cost_resources) [])).take 20 := rfl
    rw [foldl_append_eq, List.nil_append] at hcd hhc
    refine ⟨hcd, hhc, ?_, ?_, ?_, ?_⟩
    · rw [hcd]; exact List.length_take_le _ _
    · rw [hhc]; exact List.length_take_le _ _
    · rw [hcd]
      exact List.Pairwise.sublist (List.take_sublist _ _) (pairwise_sortDescBy _ _)
    · rw [hhc]
      exact List.Pairwise.sublist (List.take_sublist _ _) (pairwise_sortDescBy _ _)

/-- Witness for C5: the merged top lists of two concrete results stay within
the cap. -/
theorem merge_top_lists_witness :
    (AggregationEngine.merge "t" [sampleA, sampleB]).cost_drivers.length ≤ 20 :=
  (merge_top_lists "t" [sampleA, sampleB] (by decide)).2.2.1

/-! ## Claims about the Orchestrator and the provider registry -/

theorem analyze_ok_of_lookup (name : String) (c : ProviderClass) (days : ℕ)
    (now : String) (cc : Except String (List NormalizedCost))
    (ic : Except String (List Resource))
    (h : List.lookup (pyLower name) ProviderFactory.providerRegistry = some c) :
    Orchestrator.analyze name days now cc ic =
      .ok (Orchestrator.buildAnalysis name days now
        (Orchestrator.safeAwait cc []) (Orchestrator.safeAwait ic [])) := by
  unfold Orchestrator.analyze ProviderFactory.get_provider
  rw [h]

/-- C1: for every registered provider name, `analyze` never raises when the
cost or infrastructure call throws: each call is independently wrapped in
`_safe` and replaced by the empty list, so the result degrades to zero total
cost (no trends, no cost drivers) and/or zero resources (no running count,
no high-cost list) instead of aborting. -/
theorem analyze_isolates_failures (name : String) (days : ℕ) (now : String)
    (cc : Except String (List NormalizedCost)) (ic : Except String (List Resource))
    (hreg : pyLower name = "gcp" ∨ pyLower name = "aws" ∨ pyLower name = "azure") :
    ∃ res, Orchestrator.analyze name days now cc ic = .ok res ∧
      (∀ e, cc = .error e →
        List.lookup "total_cost" res.summary = some (.num 0) ∧
        res.daily_trends = [] ∧ res.cost_drivers = []) ∧
      (∀ e, ic = .error e →
        List.lookup "resource_count" res.summary = some (.num 0) ∧
        res.resources = [] ∧ res.running_count = 0 ∧
        res.high_cost_resources = []) := by
  have hlook : ∃ c, List.lookup (pyLower name) ProviderFactory.providerRegistry = some c := by
    rcases hreg with h | h | h <;> rw [h] <;> exact ⟨_, rfl⟩
  obtain ⟨c, hc⟩ := hlook
  refine ⟨_, analyze_ok_of_lookup name c days now cc ic hc, ?_, ?_⟩
  · intro e he
    rw [he]
    refine ⟨?_, rfl, rfl⟩
    show some (PyVal.num (round4 0)) = some (PyVal.num 0)
    exact congrArg (fun q => some (PyVal.num q))
      (by norm_num [round4, roundHalfEven] : round4 0 = 0)
  · intro e he
    rw [he]
    refine ⟨?_, rfl, rfl, rfl⟩
    show some (PyVal.num ((0 : ℕ) : ℚ)) = some (PyVal.num 0)
    exact congrArg (fun q => some (PyVal.num q)) (by norm_num : ((0 : ℕ) : ℚ) = 0)

/-- Witness for C1: with both adapter calls throwing, `analyze("gcp", 30)`
still succeeds. -/
theorem analyze_isolates_failures_witness :
    (Orchestrator.analyze "gcp" 30 "t" (.error "boom") (.error "down")).isOk = true := by
  obtain ⟨res, h1, -, -⟩ :=
    analyze_isolates_failures "gcp" 30 "t" (.error "boom") (.error "down") (by decide)
  rw [h1]
  rfl

/-- C9: `get_provider` (and hence `analyze`) fails with the descriptive
`Unknown provider` error exactly when the lowercased name is not one of the
registered names `gcp`, `aws`, `azure`; registered names in any letter case
resolve to the corresponding adapter class. -/
theorem get_provider_registry (name : String) :
    ((∃ c, ProviderFactory.get_provider name = .ok c) ↔
      pyLower name ∈ ["gcp", "aws", "azure"]) ∧
    (pyLower name ∉ ["gcp", "aws", "azure"] →
      ProviderFactory.get_provider name = .error ("Unknown provider: " ++ name) ∧
      ∀ days now cc ic, Orchestrator.analyze name days now cc ic =
        .error ("Unknown provider: " ++ name)) ∧
    (pyLower name = "gcp" → ProviderFactory.get_provider name = .ok .gcp) ∧
    (pyLower name = "aws" → ProviderFactory.get_provider name = .ok .aws) ∧
    (pyLower name = "azure" → ProviderFactory.get_provider name = .ok .azure) := by
  by_cases h1 : pyLower name = "gcp"
  · have hlk : List.lookup (pyLower name) ProviderFactory.providerRegistry = some .gcp := by
      rw [h1]; rfl
    refine ⟨⟨fun _ => by simp [h1], fun _ => ⟨.gcp, ?_⟩⟩, fun hn => absurd (by simp [h1]) hn,
      fun _ => ?_, fun ha => absurd (h1.symm.trans ha) (by decide),
      fun ha => absurd (h1.symm.trans ha) (by decide)⟩ <;>
      · unfold ProviderFactory.get_provider
        rw [hlk]
  · by_cases h2 : pyLower name = "aws"
    · have hlk : List.lookup (pyLower name) ProviderFactory.providerRegistry = some .aws := by
        rw [h2]; rfl
      refine ⟨⟨fun _ => by simp [h2], fun _ => ⟨.aws, ?_⟩⟩, fun hn => absurd (by simp [h2]) hn,
        fun ha => absurd (h2.symm.trans ha) (by decide), fun _ => ?_,
        fun ha => absurd (h2.symm.trans ha) (by decide)⟩ <;>
        · unfold ProviderFactory.get_provider
          rw [hlk]
    · by_cases h3 : pyLower name = "azure"
      · have hlk : List.lookup (pyLower name) ProviderFactory.providerRegistry = some .azure := by
          rw [h3]; rfl
        refine ⟨⟨fun _ => by simp [h3], fun _ => ⟨.azure, ?_⟩⟩,
          fun hn => absurd (by simp [h3]) hn,
          fun ha => absurd (h3.symm.trans ha) (by decide),
          fun ha => absurd (h3.symm.trans ha) (by decide), fun _ => ?_⟩ <;>
          · unfold ProviderFactory.get_provider
            rw [hlk]
      · have b1 : (pyLower name == "gcp") = false := beq_eq_false_iff_ne.mpr h1
        have b2 : (pyLower name == "aws") = false := beq_eq_false_iff_ne.mpr h2
        have b3 : (pyLower name == "azure") = false := beq_eq_false_iff_ne.mpr h3
        have hlk : List.lookup (pyLower name) ProviderFactory.providerRegistry = none := by
          simp [ProviderFactory.providerRegistry, List.lookup, b1, b2, b3]
        have herr : ProviderFactory.get_provider name =
            .error ("Unknown provider: " ++ name) := by
          unfold ProviderFactory.get_provider
          rw [hlk]
        refine ⟨⟨fun ⟨c, hcon⟩ => ?_, fun hmem => ?_⟩,
          fun _ => ⟨herr, fun days now cc ic => ?_⟩,
          fun ha => absurd ha h1, fun ha => absurd ha h2, fun ha => absurd ha h3⟩
        · rw [herr] at hcon
          cases hcon
        · simp at hmem
          rcases hmem with h | h | h
          · exact absurd h h1
          · exact absurd h h2
          · exact absurd h h3
        · unfold Orchestrator.analyze
          rw [herr]

/-- Witness for C9: a mixed-case registered name resolves, an unregistered
name fails with the descriptive error. -/
theorem get_provider_registry_witness :
    ProviderFactory.get_provider "GCP" = .ok .gcp ∧
    ProviderFactory.get_provider "nope" = .error ("Unknown provider: " ++ "nope") :=
  ⟨(get_provider_registry "GCP").2.2.1 (by decide),
   ((get_provider_registry "nope").2.1 (by decide)).1⟩

/-! ## Claims about the status cache -/

theorem map_fst_pair (f : String → PyVal) (names : List String) :
    (names.map (fun m => (m, f m))).map Prod.fst = names := by
  induction names with
  | nil => rfl
  | cons a as ih => simpa using ih

theorem lookup_map_pair (f : String → PyVal) (names : List String) (n : String)
    (hn : n ∈ names) (tail : Dict) :
    List.lookup n (names.map (fun m => (m, f m)) ++ tail) = some (f n) := by
  induction names with
  | nil => cases hn
  | cons a as ih =>
    by_cases h : n = a
    · subst h
      simp [List.lookup]
    · have hb : (n == a) = false := beq_eq_false_iff_ne.mpr h
      rcases List.mem_cons.mp hn with h' | h'
      · exact absurd h' h
      · simpa [List.lookup, hb] using ih h'

/-- C6: `get_all_statuses` always covers the whole registry: for every
combination of constructor/probe outcomes the mapping has exactly the keys
`gcp`, `aws`, `azure`, `_meta`; a failed construction yields the synthetic
failure status, a timed-out probe yields the degraded status with
`installed: true`, `authenticated: false` and the timeout error string —
never a missing key (and, the model being a total function, never an
exception). -/
theorem statuses_cover_registry (pe : ProviderFactory.ProbeEnv) :
    (ProviderFactory.refreshStatuses pe).map Prod.fst =
      ProviderFactory.registeredNames ++ ["_meta"] ∧
    (∀ n, n ∈ ProviderFactory.registeredNames →
      pe.outcome n = .built .timeout →
        List.lookup n (ProviderFactory.refreshStatuses pe) =
          some (.dct ProviderFactory.timeoutStatus)) ∧
    (∀ n e, n ∈ ProviderFactory.registeredNames →
      pe.outcome n = .ctorFail e →
        List.lookup n (ProviderFactory.refreshStatuses pe) =
          some (.dct (ProviderFactory.instantiateFail n))) ∧
    List.lookup "installed" ProviderFactory.timeoutStatus = some (.bool true) ∧
    List.lookup "authenticated" ProviderFactory.timeoutStatus = some (.bool false) ∧
    List.lookup "error" ProviderFactory.timeoutStatus =
      some (.str "Status check timed out after 20.0s") ∧
    (∀ st now tEnd, st.cache = none →
      (ProviderFactory.get_all_statuses st now pe tEnd).2.map Prod.fst =
        ProviderFactory.registeredNames ++ ["_meta"]) := by
  refine ⟨?_, ?_, ?_, rfl, rfl, rfl, ?_⟩
  · unfold ProviderFactory.refreshStatuses
    rw [List.map_append, map_fst_pair]
    rfl
  · intro n hn hout
    refine (lookup_map_pair _ _ _ hn _).trans ?_
    rw [hout]
    rfl
  · intro n e hn hout
    refine (lookup_map_pair _ _ _ hn _).trans ?_
    rw [hout]
  · intro st now tEnd hcache
    rcases st with ⟨cache, ts⟩
    cases hcache
    show (ProviderFactory.refreshStatuses pe).map Prod.fst = _
    unfold ProviderFactory.refreshStatuses
    rw [List.map_append, map_fst_pair]
    rfl

/-- Concrete probe environment in which every probe times out. -/
def peTimeout : ProviderFactory.ProbeEnv where
  outcome := fun _ => .built .timeout
  elapsed := 20
  env := []

/-- Witness for C6: with a timed-out probe, the `gcp` key is present and
carries the degraded timeout status. -/
theorem statuses_cover_registry_witness :
    List.lookup "gcp" (ProviderFactory.refreshStatuses peTimeout) =
      some (.dct ProviderFactory.timeoutStatus) :=
  (statuses_cover_registry peTimeout).2.1 "gcp" (by decide) rfl

/-- C7: a second call that starts while the cached snapshot is younger than
the 60-second TTL returns the identical snapshot and leaves the state
untouched (independently of the second probe environment: nothing is probed
again); a call after the TTL expired performs a fresh probe of every
provider and re-caches with a fresh timestamp. -/
theorem statuses_cache_ttl (st : ProviderFactory.CacheState) (now tEnd now2 tEnd2 : ℚ)
    (pe pe2 : ProviderFactory.ProbeEnv) :
    (now2 - (ProviderFactory.get_all_statuses st now pe tEnd).1.timestamp <
        ProviderFactory.CACHE_TTL →
      ProviderFactory.get_all_statuses
          (ProviderFactory.get_all_statuses st now pe tEnd).1 now2 pe2 tEnd2 =
        ProviderFactory.get_all_statuses st now pe tEnd) ∧
    (ProviderFactory.CACHE_TTL ≤
        now2 - (ProviderFactory.get_all_statuses st now pe tEnd).1.timestamp →
      ProviderFactory.get_all_statuses
          (ProviderFactory.get_all_statuses st now pe tEnd).1 now2 pe2 tEnd2 =
        (⟨some (ProviderFactory.refreshStatuses pe2), tEnd2⟩,
          ProviderFactory.refreshStatuses pe2)) := by
  have hinv : (ProviderFactory.get_all_statuses st now pe tEnd).1.cache =
      some (ProviderFactory.get_all_statuses st now pe tEnd).2 := by
    rcases st with ⟨cache, ts⟩
    cases cache with
    | none => rfl
    | some c =>
      dsimp only [ProviderFactory.get_all_statuses]
      split <;> rfl
  obtain ⟨p, hp⟩ : ∃ p, ProviderFactory.get_all_statuses st now pe tEnd = p := ⟨_, rfl⟩
  rw [hp] at hinv ⊢
  constructor
  · intro hfresh
    unfold ProviderFactory.get_all_statuses
    simp only [hinv]
    rw [if_pos hfresh]
  · intro hstale
    unfold ProviderFactory.get_all_statuses
    simp only [hinv]
    rw [if_neg (not_lt.mpr hstale)]

/-- Concrete probe environment in which every adapter construction fails. -/
def peFail : ProviderFactory.ProbeEnv where
  outcome := fun _ => .ctorFail "no credentials"
  elapsed := 0
  env := []

/-- Witness for C7: after a first call cached at `t = 5`, a call at `t = 10`
returns the identical snapshot, and a call at `t = 70` (TTL expired)
re-probes and re-caches with timestamp `80`. -/
theorem statuses_cache_ttl_witness :
    (ProviderFactory.get_all_statuses
        (ProviderFactory.get_all_statuses ⟨none, 0⟩ 0 peFail 5).1 10 peTimeout 12 =
      ProviderFactory.get_all_statuses ⟨none, 0⟩ 0 peFail 5) ∧
    (ProviderFactory.get_all_statuses
        (ProviderFactory.get_all_statuses ⟨none, 0⟩ 0 peFail 5).1 70 peTimeout 80 =
      (⟨some (ProviderFactory.refreshStatuses peTimeout), 80⟩,
        ProviderFactory.refreshStatuses peTimeout)) := by
  have ht : (ProviderFactory.get_all_statuses ⟨none, 0⟩ 0 peFail 5).1.timestamp = 5 := rfl
  constructor
  · refine (statuses_cache_ttl ⟨none, 0⟩ 0 5 10 12 peFail peTimeout).1 ?_
    rw [ht]
    norm_num [ProviderFactory.CACHE_TTL]
  · refine (statuses_cache_ttl ⟨none, 0⟩ 0 5 70 80 peFail peTimeout).2 ?_
    rw [ht]
    norm_num [ProviderFactory.CACHE_TTL]

/-- C8 counterexample: the claim that the probing executes outside the lock
is false on the code — on the cache-miss path of `get_all_statuses` the
probe event occurs, and it occurs while the cache lock is held (the
`async with _cache_lock` block encloses the whole body). -/
theorem statuses_probe_outside_lock_cex :
    (ProviderFactory.statusesBody false).contains .probe = true ∧
    ProviderFactory.probesOutsideLock (ProviderFactory.statusesBody false) = false :=
  ⟨rfl, rfl⟩

/-- C8 (amended): the lock is held for the entire `get_all_statuses` body —
the freshness check, the provider instantiation, the probing and the
write-back all execute at lock depth 1, so the probe work of concurrent
callers is serialized by the lock (which is also what collapses concurrent
refreshes into one). -/
theorem statuses_probe_under_lock (hit : Bool) :
    ProviderFactory.probesUnderLock (ProviderFactory.statusesBody hit) = true ∧
    (ProviderFactory.annotateDepth (ProviderFactory.statusesBody hit) 0).all
      (fun p => p.1 == .acquire || p.1 == .release || p.2 == 1) = true := by
  cases hit <;> exact ⟨rfl, rfl⟩

/-! ## Frame property of the merge (C10) -/

theorem foldl_invariant (P : α → Prop) (step : α → β → α) (l : List β) (a : α)
    (ha : P a) (hstep : ∀ x y, P x → P (step x y)) : P (l.foldl step a) := by
  induction l generalizing a with
  | nil => exact ha
  | cons x xs ih => exact ih _ (hstep _ _ ha)

theorem tagRefs_preserves (σ0 : AggregationEngine.Store) (provider : String)
    (refs : List ℕ) (acc : AggregationEngine.Store × List ℕ)
    (h1 : ∃ e, acc.1 = σ0 ++ e) (h2 : ∀ r ∈ acc.2, σ0.length ≤ r) :
    (∃ e, (AggregationEngine.tagRefs provider acc refs).1 = σ0 ++ e) ∧
    (∀ r ∈ (AggregationEngine.tagRefs provider acc refs).2, σ0.length ≤ r) := by
  unfold AggregationEngine.tagRefs
  refine foldl_invariant
    (fun acc => (∃ e, acc.1 = σ0 ++ e) ∧ (∀ r ∈ acc.2, σ0.length ≤ r))
    _ refs acc ⟨h1, h2⟩ ?_
  intro x y hx
  obtain ⟨⟨e, he⟩, hout⟩ := hx
  dsimp only [AggregationEngine.allocRef]
  constructor
  · exact ⟨e ++ [_], by rw [he, List.append_assoc]⟩
  · intro r hr
    rcases List.mem_append.mp hr with h | h
    · exact hout r h
    · have hr' : r = x.1.length := List.mem_singleton.mp h
      subst hr'
      rw [he, List.length_append]
      exact Nat.le_add_right _ _

/-- C10: the merge never mutates its inputs.  In the object-store model of
the tagging loops (the only part of `merge` that touches mutable sub-objects
of the inputs), running the loop only appends freshly allocated copies to
the store: every pre-existing dict — in particular every anomaly and
daily-trend dict of every input — is unchanged, and every dict reference in
the merged output is fresh (allocated at or beyond the old store end), so
the merged result is a new instance sharing no tagged dict with the
inputs. -/
theorem mergeTagLoop_frame (σ : AggregationEngine.Store)
    (inputs : List (String × List ℕ)) :
    (∃ extra, (AggregationEngine.mergeTagLoop σ inputs).1 = σ ++ extra) ∧
    (∀ r ∈ (AggregationEngine.mergeTagLoop σ inputs).2, σ.length ≤ r) ∧
    (∀ i, i < σ.length →
      AggregationEngine.readRef (AggregationEngine.mergeTagLoop σ inputs).1 i =
        AggregationEngine.readRef σ i) := by
  have main : (∃ e, (AggregationEngine.mergeTagLoop σ inputs).1 = σ ++ e) ∧
      (∀ r ∈ (AggregationEngine.mergeTagLoop σ inputs).2, σ.length ≤ r) := by
    unfold AggregationEngine.mergeTagLoop
    refine foldl_invariant
      (fun acc => (∃ e, acc.1 = σ ++ e) ∧ (∀ r ∈ acc.2, σ.length ≤ r))
      _ inputs (σ, []) ⟨⟨[], by simp⟩, by simp⟩ ?_
    intro x y hx
    exact tagRefs_preserves σ y.1 y.2 x hx.1 hx.2
  obtain ⟨⟨e, he⟩, hout⟩ := main
  refine ⟨⟨e, he⟩, hout, ?_⟩
  intro i hi
  rw [he]
  unfold AggregationEngine.readRef
  exact List.getD_append _ _ _ _ hi

/-- Witness for C10: a one-dict store with one tagged anomaly reference —
the original store entry survives the merge unchanged. -/
theorem mergeTagLoop_frame_witness :
    ∃ extra,
      (AggregationEngine.mergeTagLoop [[("kind", .str "spike")]] [("gcp", [0])]).1 =
        [[("kind", .str "spike")]] ++ extra :=
  (mergeTagLoop_frame [[("kind", .str "spike")]] [("gcp", [0])]).1

end OpsYield
